import Mathlib

/-!
# Verification of the pairing-code flow in `src/pair.js`

This file gives a shallow embedding of the session pairing and lifecycle
flow implemented by `generatePairingCodeAndConnect` in `src/pair.js`,
and proves properties of that embedding.

Modelling conventions:
* Every externally visible action of the flow (HTTP reply, pairing-code
  request, workspace removal, socket close, archival upload, message send,
  process exit, logging, fixed delays) is recorded as an `Effect`; a run
  returns the list of effects in the order the code performs them.
* The response object is modelled by the boolean `headersSent`, exactly
  the guard the code consults via `res.headersSent`; a `reply` effect sets
  it.
* External collaborators (baileys, the filesystem, mega upload, message
  delivery) are modelled by environment records: per invocation an
  `InvocationEnv` (whether setup throws, whether the loaded credentials are
  already registered, the pairing code the transport hands back, and the
  stream of connection events delivered to the registered handler), and per
  Open event an `OpenEnv` (whether `creds.json` exists after the settle
  delay, the user id, the mega locator, and which export step fails, if
  any).
* `process.exit` stops the whole run (further events and retries are
  dropped), matching process-level termination.  An exception escaping the
  async `connection.update` handler is recorded in `thrown` and also stops
  the run (an unhandled promise rejection aborts a default Node process).
* The transient-close branch re-invokes `generatePairingCodeAndConnect`
  with the same `req`/`res`; recursion is bounded by explicit `fuel`
  (the real code has no bound — a flagged unboundedness).
-/

set_option maxHeartbeats 1000000

namespace RiapCm

/-- One character class test of the regex `[^0-9]`: `isDigitChar c` is true
exactly when `c` is kept by `phoneNumber.replace(/[^0-9]/g, '')`. -/
def isDigitChar (c : Char) : Bool :=
  decide ('0' ≤ c) && decide (c ≤ '9')

/-- The scan performed by the global regex replace
`phoneNumber.replace(/[^0-9]/g, '')`: every character outside `0`-`9` is
dropped, the rest are kept in order. -/
def stripNonDigits : List Char → List Char
  | [] => []
  | c :: cs => if isDigitChar c then c :: stripNonDigits cs else stripNonDigits cs

/-- `phoneNumber = phoneNumber.replace(/[^0-9]/g, '')` (src/pair.js line 40). -/
def normalizeNumber (s : String) : String :=
  String.mk (stripNonDigits s.data)

/-- Modelled from the spec: `makeid` lives in `src/gen-id.js`, which is not
among the sources; the spec describes its result as an opaque unique token
generated once per attempt.  Attempts are therefore indexed by a counter
and the token is an injection from that counter into strings. -/
def makeid (n : Nat) : String :=
  String.mk ('S' :: List.replicate n 'x')

/-- `const sessionDirPath = `./temp/${sessionId}`` (src/pair.js line 42). -/
def sessionDirPath (n : Nat) : String :=
  "./temp/" ++ makeid n

/-- JS `String.prototype.replace` with a plain string pattern, on the
underlying character list: it replaces the first occurrence of the pattern
only, and returns the input unchanged when the pattern does not occur.
(The source calls it with a non-empty pattern.) -/
def replaceFirstAux (pat repl : List Char) : List Char → List Char
  | [] => []
  | c :: cs =>
    if pat.isPrefixOf (c :: cs) then repl ++ (c :: cs).drop pat.length
    else c :: replaceFirstAux pat repl cs

/-- String-level wrapper for `replaceFirstAux`. -/
def replaceFirst (s pat repl : String) : String :=
  String.mk (replaceFirstAux pat.data repl.data s.data)

/-- The fixed locator base stripped at src/pair.js line 98. -/
def megaUrlBase : String := "https://mega.nz/file/"

/-- `const sessionString = megaUrl.replace('https://mega.nz/file/', '')`
(src/pair.js line 98). -/
def sessionString (megaUrl : String) : String :=
  replaceFirst megaUrl megaUrlBase ""

/-- `const messageToSelf = `RAHEEM-XMD-3>>>${sessionString}``
(src/pair.js line 99). -/
def messageToSelf (megaUrl : String) : String :=
  "RAHEEM-XMD-3>>>" ++ sessionString megaUrl

/-- The spec-side reading of the token derivation: the token is the locator
with the known fixed leading base stripped when the locator starts with it,
and the locator itself otherwise.  Stated only to compare with the code's
`sessionString`. -/
def stripKnownBase (u : String) : String :=
  if megaUrlBase.data.isPrefixOf u.data then
    String.mk (u.data.drop megaUrlBase.data.length)
  else u

/-- The rich status text at src/pair.js lines 109-129, as a function of the
formatted time and date strings produced for the Africa/Dar_es_Salaam
timezone. -/
def botDescription (time date : String) : String :=
  "🟢  *BOT SUCCESSFULLY CONNECTED 🟢!*\n                \n╭━━ 『 RAHEEM-XMD-3 INITIALIZED 』\n┃  ⚡ BOT NAME: RAHEEM-XMD-3 \n┃  👑 OWNER: Raheem-cm \n┃  ⚙️ MODE: *private*\n┃  🎯 PREFIX: *.*\n┃  ⏳ TIME: *"
    ++ time
    ++ "*\n┃  📆 DATE: "
    ++ date
    ++ "\n╰━━━━━━━━━━━━━━━━━━━╯\n\n⚠️ REPORT ANY GLITCHES DIRECTLY TO THE OWNER.\n\n╭──────────────────★\n│ POWERED BY Raheem-cm\n╰──────────────────★\n📢 CHANNEL: Click Here(https://whatsapp.com/channel/0029VbAffhD2ZjChG9DX922r)\n🛠️ DEPLOY YOUR BOT: GitHub Repo(https://github.com/Raheem-cm/RAHEEM-XMD-3)\n\n🔋  SYSTEM STATUS: RAHEEM-XMD-3 100% 🧐  A.I READY • MULTI DEVICE • STABLE RELEASE\n"

/-- Reply payload strings of src/pair.js. -/
def missingNumberMsg : String := "❗ Phone number is required."

/-- 500 payload of the missing-credentials branch (line 87). -/
def credsNotFoundMsg : String := "❗ Connection failed: Credentials file not found."

/-- 500 payload of the upload/send failure branch (line 156). -/
def uploadFailedMsg : String := "❗ Failed to upload or send messages."

/-- 401 payload of the authentication-failure branch (line 180). -/
def authFailedMsg : String := "❗ Authentication failed. Please try again."

/-- 500 payload of the outer catch (line 191). -/
def serviceUnavailableMsg : String := "❗ Service currently unavailable. Please try again."

/-- Log line of the outer catch (line 188). -/
def setupErrorLogMsg : String := "ERROR in generatePairingCodeAndConnect:"

/-- Log line of the upload/send failure branch (line 154). -/
def uploadErrorLogMsg : String := "ERROR uploading to Mega or sending messages:"

/-- Log line of the transient-close branch (line 167). -/
def closedRetryLogMsg : String := "Connection closed, restarting pairing process due to:"

/-- Log line of the auth-failure branch (line 177). -/
def authFailedLogMsg : String := "Authentication failed, removing session and restarting:"

/-- Log line of the success branch (line 148). -/
def connectedLogMsg (userId : String) : String :=
  "👤 " ++ userId ++ " Connected ✅ Restarting process..."

/-- Every externally visible action of the flow, in the order performed. -/
inductive Effect where
  /-- `res.status(s).send({ code })` or `res.send({ code })` (status 200). -/
  | reply (status : Nat) (code : String)
  /-- `useMultiFileAuthState(sessionDirPath)` + `makeWASocket(...)`:
  the workspace directory is allocated and the protocol session opened. -/
  | openSession (path : String)
  /-- `await delay(ms)`. -/
  | delay (ms : Nat)
  /-- `sock.requestPairingCode(phoneNumber)`. -/
  | requestPairingCode (number : String)
  /-- `sock.ev.on('creds.update', saveCreds)`. -/
  | subscribeCreds
  /-- `sock.ev.on("connection.update", ...)`. -/
  | subscribeConnection
  /-- `removeFile(path)` (recursive removal, a no-op when absent). -/
  | removeFile (path : String)
  /-- `await sock.ws.close()`. -/
  | closeSocket
  /-- `upload(fs.createReadStream(path), filename)`. -/
  | upload (path : String) (filename : String)
  /-- `sock.sendMessage(jid, { text }, ...)`; `quoted` records whether the
  send quotes the previously sent message. -/
  | sendMessage (jid : String) (text : String) (quoted : Bool)
  /-- `process.exit()` (exit code 0). -/
  | processExit (code : Nat)
  /-- `console.log` / `console.error`. -/
  | log (msg : String)
deriving Repr, DecidableEq

/-- `{statusCode, message}` carried by `lastDisconnect.error.output` and used
only to classify Close events. -/
structure ErrorInfo where
  statusCode : Nat
  message : String
deriving Repr, DecidableEq

/-- Behaviour of the external collaborators during one Open event:
whether `creds.json` is present after the settle delay, the authenticated
identity `sock.user.id`, the locator returned by `upload`, the formatted
time and date, and which export step (if any) throws. -/
structure OpenEnv where
  credsFileExists : Bool
  userId : String
  megaUrl : String
  time : String
  date : String
  uploadFails : Bool
  sendFirstFails : Bool
  sendSecondFails : Bool
deriving Repr, DecidableEq

/-- A connection-status notification: `connection === "open"`, or
`connection === "close"` with the optional `lastDisconnect.error.output`
(`none` models a Close whose `lastDisconnect` or `.error` is missing). -/
inductive ConnectionEvent where
  | Open (env : OpenEnv)
  | Close (lastDisconnect : Option ErrorInfo)
deriving Repr, DecidableEq

/-- Behaviour of the external collaborators during one invocation of
`generatePairingCodeAndConnect`: whether setup throws (outer catch),
whether the credentials loaded from the workspace are already registered,
the pairing code the transport returns, and the connection events the
transport later delivers to the registered handler. -/
structure InvocationEnv where
  setupFails : Bool
  registered : Bool
  pairingCode : String
  events : List ConnectionEvent
deriving Repr, DecidableEq

/-- Result of one `connection.update` handler run: the effects performed,
the updated reply guard, whether `process.exit` was reached, an exception
escaping the handler (if any), and whether a retry was scheduled. -/
structure HandlerResult where
  effects : List Effect
  headersSent : Bool
  exited : Bool
  thrown : Option String
  retry : Bool
deriving Repr, DecidableEq

/-- Result of a run of the flow: effects in order, the final reply guard,
whether the process exited, an uncaught exception (if any), the unconsumed
invocation environments and the next unused session-id index. -/
structure FlowResult where
  effects : List Effect
  headersSent : Bool
  exited : Bool
  thrown : Option String
  rest : List InvocationEnv
  nextId : Nat
deriving Repr, DecidableEq

/-- The `connection === "open"` branch (src/pair.js lines 79-162).
When `creds.json` is absent, evaluating the template literal
``ERROR: creds.json not found at ${cresFilePath}`` at line 85 throws
`ReferenceError: cresFilePath is not defined` (the identifier is a typo for
`credsFilePath` and is bound nowhere), so the reply, socket close and
workspace removal at lines 86-91 are never reached.  A step that throws is
recorded as attempted before the catch runs. -/
def connectionOpenHandler (selfId : Nat) (hs : Bool) (env : OpenEnv) : HandlerResult :=
  let path := sessionDirPath selfId
  let credsFilePath := path ++ "/creds.json"
  if !env.credsFileExists then
    { effects := [.delay 5000], headersSent := hs, exited := false,
      thrown := some "ReferenceError: cresFilePath is not defined", retry := false }
  else if env.uploadFails then
    { effects := [.delay 5000, .upload credsFilePath (env.userId ++ ".json"),
        .log uploadErrorLogMsg]
        ++ (if hs then [] else [.reply 500 uploadFailedMsg])
        ++ [.closeSocket, .removeFile path],
      headersSent := true, exited := false, thrown := none, retry := false }
  else if env.sendFirstFails then
    { effects := [.delay 5000, .upload credsFilePath (env.userId ++ ".json"),
        .sendMessage env.userId (messageToSelf env.megaUrl) false,
        .log uploadErrorLogMsg]
        ++ (if hs then [] else [.reply 500 uploadFailedMsg])
        ++ [.closeSocket, .removeFile path],
      headersSent := true, exited := false, thrown := none, retry := false }
  else if env.sendSecondFails then
    { effects := [.delay 5000, .upload credsFilePath (env.userId ++ ".json"),
        .sendMessage env.userId (messageToSelf env.megaUrl) false,
        .sendMessage env.userId (botDescription env.time env.date) true,
        .log uploadErrorLogMsg]
        ++ (if hs then [] else [.reply 500 uploadFailedMsg])
        ++ [.closeSocket, .removeFile path],
      headersSent := true, exited := false, thrown := none, retry := false }
  else
    { effects := [.delay 5000, .upload credsFilePath (env.userId ++ ".json"),
        .sendMessage env.userId (messageToSelf env.megaUrl) false,
        .sendMessage env.userId (botDescription env.time env.date) true,
        .delay 100, .closeSocket, .removeFile path,
        .log (connectedLogMsg env.userId), .processExit 0],
      headersSent := hs, exited := true, thrown := none, retry := false }

/-- The `connection === "close"` branch (src/pair.js lines 164-184).
Both sub-branches require `lastDisconnect && lastDisconnect.error`; a Close
without it falls through with no effect. -/
def connectionCloseHandler (selfId : Nat) (hs : Bool)
    (lastDisconnect : Option ErrorInfo) : HandlerResult :=
  match lastDisconnect with
  | none =>
    { effects := [], headersSent := hs, exited := false, thrown := none, retry := false }
  | some err =>
    if err.statusCode ≠ 401 then
      { effects := [.log closedRetryLogMsg, .removeFile (sessionDirPath selfId), .delay 2000],
        headersSent := hs, exited := false, thrown := none, retry := true }
    else
      { effects := [.log authFailedLogMsg, .removeFile (sessionDirPath selfId)]
          ++ (if hs then [] else [.reply 401 authFailedMsg])
          ++ [.processExit 0],
        headersSent := true, exited := true, thrown := none, retry := false }

/-- Dispatch of the `connection.update` handler on the event kind. -/
def connectionUpdateHandler (selfId : Nat) (hs : Bool) : ConnectionEvent → HandlerResult
  | .Open env => connectionOpenHandler selfId hs env
  | .Close ld => connectionCloseHandler selfId hs ld

/-- Delivery of the queued connection events to the registered handler.
`retryK` is the re-invocation performed by the transient-close branch
(line 173); it receives the unconsumed invocation environments, the next
fresh session-id index and the current reply guard.  `process.exit` or an
exception escaping a handler stops the run. -/
def connectionUpdateLoop (retryK : List InvocationEnv → Nat → Bool → FlowResult)
    (selfId : Nat) :
    List ConnectionEvent → List InvocationEnv → Nat → Bool → FlowResult
  | [], rest, nextId, hs =>
    { effects := [], headersSent := hs, exited := false, thrown := none,
      rest := rest, nextId := nextId }
  | ev :: evs, rest, nextId, hs =>
    let r := connectionUpdateHandler selfId hs ev
    if r.exited then
      { effects := r.effects, headersSent := r.headersSent, exited := true,
        thrown := none, rest := rest, nextId := nextId }
    else if r.thrown.isSome then
      { effects := r.effects, headersSent := r.headersSent, exited := false,
        thrown := r.thrown, rest := rest, nextId := nextId }
    else if r.retry then
      let sub := retryK rest nextId r.headersSent
      if sub.exited || sub.thrown.isSome then
        { effects := r.effects ++ sub.effects, headersSent := sub.headersSent,
          exited := sub.exited, thrown := sub.thrown, rest := sub.rest,
          nextId := sub.nextId }
      else
        let k := connectionUpdateLoop retryK selfId evs sub.rest sub.nextId sub.headersSent
        { effects := r.effects ++ sub.effects ++ k.effects,
          headersSent := k.headersSent, exited := k.exited, thrown := k.thrown,
          rest := k.rest, nextId := k.nextId }
    else
      let k := connectionUpdateLoop retryK selfId evs rest nextId r.headersSent
      { effects := r.effects ++ k.effects, headersSent := k.headersSent,
        exited := k.exited, thrown := k.thrown, rest := k.rest, nextId := k.nextId }

/-- The flow of `generatePairingCodeAndConnect(req, res)` (src/pair.js
lines 29-194).  `rawNumber` is `req.query.number` (`none` = absent);
`selfId` indexes the `makeid()` call of this invocation; `hs` is
`res.headersSent` on entry.  Faithful branch order:
* the falsy check on the raw value precedes normalization (lines 34-40);
* when the session is unregistered and no reply has been sent, the pairing
  code is sent and the function returns at line 67, so neither listener is
  registered and later events are not handled;
* otherwise both listeners are registered and queued events are handled;
* the outer catch removes the workspace and replies 500 when possible. -/
def generatePairingCodeAndConnect (fuel : Nat) (rawNumber : Option String)
    (envs : List InvocationEnv) (selfId : Nat) (hs : Bool) : FlowResult :=
  match fuel with
  | 0 =>
    { effects := [], headersSent := hs, exited := false, thrown := none,
      rest := envs, nextId := selfId }
  | Nat.succ fuel =>
    match rawNumber with
    | none =>
      { effects := [.reply 400 missingNumberMsg], headersSent := true,
        exited := false, thrown := none, rest := envs, nextId := selfId + 1 }
    | some raw =>
      if raw = "" then
        { effects := [.reply 400 missingNumberMsg], headersSent := true,
          exited := false, thrown := none, rest := envs, nextId := selfId + 1 }
      else
        match envs with
        | [] =>
          { effects := [], headersSent := hs, exited := false, thrown := none,
            rest := [], nextId := selfId + 1 }
        | env :: rest =>
          let path := sessionDirPath selfId
          let phoneNumber := normalizeNumber raw
          if env.setupFails then
            { effects := [.log setupErrorLogMsg, .removeFile path]
                ++ (if hs then [] else [.reply 500 serviceUnavailableMsg]),
              headersSent := true, exited := false, thrown := none,
              rest := rest, nextId := selfId + 1 }
          else
            let retryK := fun rest2 nid hs2 =>
              generatePairingCodeAndConnect fuel (some raw) rest2 nid hs2
            if !env.registered then
              if !hs then
                { effects := [.openSession path, .delay 1500,
                    .requestPairingCode phoneNumber, .reply 200 env.pairingCode],
                  headersSent := true, exited := false, thrown := none,
                  rest := rest, nextId := selfId + 1 }
              else
                let k := connectionUpdateLoop retryK selfId env.events rest (selfId + 1) hs
                { effects := [.openSession path, .delay 1500,
                    .requestPairingCode phoneNumber, .subscribeCreds,
                    .subscribeConnection] ++ k.effects,
                  headersSent := k.headersSent, exited := k.exited,
                  thrown := k.thrown, rest := k.rest, nextId := k.nextId }
            else
              let k := connectionUpdateLoop retryK selfId env.events rest (selfId + 1) hs
              { effects := [.openSession path, .subscribeCreds,
                  .subscribeConnection] ++ k.effects,
                headersSent := k.headersSent, exited := k.exited,
                thrown := k.thrown, rest := k.rest, nextId := k.nextId }

/-- Recognizer for reply effects. -/
def isReply : Effect → Bool
  | .reply _ _ => true
  | _ => false

/-- Number of HTTP-style replies in an effect trace. -/
def replyCount (l : List Effect) : Nat :=
  l.countP isReply

/-- Recognizer for archival upload effects. -/
def isUpload : Effect → Bool
  | .upload _ _ => true
  | _ => false

/-- Recognizer for message-send effects. -/
def isSend : Effect → Bool
  | .sendMessage _ _ _ => true
  | _ => false

end RiapCm

namespace RiapCm

/-! ## Helper lemmas: the reply-guard bookkeeping -/

lemma replyCount_append (a b : List Effect) :
    replyCount (a ++ b) = replyCount a + replyCount b :=
  List.countP_append ..

/-- One `connection.update` handler run emits as many replies as the guard
absorbs: replies emitted plus the guard on entry equals the guard on exit. -/
lemma handler_reply_inv (selfId : Nat) (hs : Bool) (ev : ConnectionEvent) :
    replyCount (connectionUpdateHandler selfId hs ev).effects + hs.toNat
      = (connectionUpdateHandler selfId hs ev).headersSent.toNat := by
  cases ev with
  | Open env =>
    simp only [connectionUpdateHandler, connectionOpenHandler]
    cases env.credsFileExists <;> cases env.uploadFails <;>
      cases env.sendFirstFails <;> cases env.sendSecondFails <;> cases hs <;>
      simp [replyCount, isReply, List.countP_append, List.countP_cons]
  | Close ld =>
    match ld with
    | none =>
      simp [connectionUpdateHandler, connectionCloseHandler, replyCount]
    | some err =>
      simp only [connectionUpdateHandler, connectionCloseHandler]
      by_cases h : err.statusCode = 401 <;> cases hs <;>
        simp [h, replyCount, isReply, List.countP_append, List.countP_cons]

/-- The event loop preserves the reply-guard bookkeeping whenever the retry
continuation does. -/
lemma loop_reply_inv (retryK : List InvocationEnv → Nat → Bool → FlowResult)
    (hK : ∀ rest nid h, replyCount (retryK rest nid h).effects + h.toNat
      = (retryK rest nid h).headersSent.toNat)
    (selfId : Nat) :
    ∀ (evs : List ConnectionEvent) (rest : List InvocationEnv) (nid : Nat) (hs : Bool),
      replyCount (connectionUpdateLoop retryK selfId evs rest nid hs).effects + hs.toNat
        = (connectionUpdateLoop retryK selfId evs rest nid hs).headersSent.toNat := by
  intro evs
  induction evs with
  | nil =>
    intro rest nid hs
    simp [connectionUpdateLoop, replyCount]
  | cons ev evs ih =>
    intro rest nid hs
    have hr := handler_reply_inv selfId hs ev
    simp only [connectionUpdateLoop]
    split
    · exact hr
    · split
      · exact hr
      · split
        · split
          · have hk := hK rest nid (connectionUpdateHandler selfId hs ev).headersSent
            simp only [replyCount_append]
            omega
          · have hk := hK rest nid (connectionUpdateHandler selfId hs ev).headersSent
            have hl := ih (retryK rest nid (connectionUpdateHandler selfId hs ev).headersSent).rest
              (retryK rest nid (connectionUpdateHandler selfId hs ev).headersSent).nextId
              (retryK rest nid (connectionUpdateHandler selfId hs ev).headersSent).headersSent
            simp only [replyCount_append]
            omega
        · have hl := ih rest nid (connectionUpdateHandler selfId hs ev).headersSent
          simp only [replyCount_append]
          omega

/-- The whole flow preserves the reply-guard bookkeeping, provided the guard
is still clear whenever the raw number is missing or empty (the one reply
site the code leaves unguarded is reachable only before any session
exists). -/
lemma flow_reply_inv :
    ∀ (fuel : Nat) (rawNumber : Option String) (envs : List InvocationEnv)
      (selfId : Nat) (hs : Bool),
      ((rawNumber = none ∨ rawNumber = some "") → hs = false) →
      replyCount (generatePairingCodeAndConnect fuel rawNumber envs selfId hs).effects
          + hs.toNat
        = (generatePairingCodeAndConnect fuel rawNumber envs selfId hs).headersSent.toNat := by
  intro fuel
  induction fuel with
  | zero =>
    intro raw envs selfId hs _
    simp [generatePairingCodeAndConnect, replyCount]
  | succ fuel ih =>
    intro raw envs selfId hs hpre
    match raw with
    | none =>
      have hhs : hs = false := hpre (Or.inl rfl)
      subst hhs
      simp [generatePairingCodeAndConnect, replyCount, isReply, List.countP_cons]
    | some raw =>
      by_cases hraw : raw = ""
      · have hhs : hs = false := hpre (Or.inr (by rw [hraw]))
        subst hhs
        simp [generatePairingCodeAndConnect, hraw, replyCount, isReply, List.countP_cons]
      · match envs with
        | [] =>
          simp [generatePairingCodeAndConnect, hraw, replyCount]
        | env :: rest =>
          have hK : ∀ rest2 nid hs2,
              replyCount (generatePairingCodeAndConnect fuel (some raw) rest2 nid hs2).effects
                  + hs2.toNat
                = (generatePairingCodeAndConnect fuel (some raw) rest2 nid
                    hs2).headersSent.toNat := by
            intro rest2 nid hs2
            refine ih (some raw) rest2 nid hs2 ?_
            intro h
            rcases h with h | h
            · exact absurd h (by simp)
            · exact absurd (Option.some.injEq .. ▸ h) hraw
          simp only [generatePairingCodeAndConnect, hraw, if_false]
          by_cases hsetup : env.setupFails = true
          · cases hs <;>
              simp [hsetup, replyCount, isReply, List.countP_append, List.countP_cons]
          · have hsetup' : env.setupFails = false := by
              cases h : env.setupFails
              · rfl
              · exact absurd h hsetup
            by_cases hreg : env.registered = true
            · have hl := loop_reply_inv
                (fun rest2 nid hs2 =>
                  generatePairingCodeAndConnect fuel (some raw) rest2 nid hs2)
                hK selfId env.events rest (selfId + 1) hs
              simp only [hsetup', hreg, Bool.not_true, if_false, Bool.false_eq_true,
                replyCount_append]
              simp only [replyCount, List.countP_cons, List.countP_nil] at *
              simp [isReply] at *
              omega
            · have hreg' : env.registered = false := by
                cases h : env.registered
                · rfl
                · exact absurd h hreg
              cases hs with
              | false =>
                simp [hsetup', hreg', replyCount, isReply, List.countP_cons]
              | true =>
                have hl := loop_reply_inv
                  (fun rest2 nid hs2 =>
                    generatePairingCodeAndConnect fuel (some raw) rest2 nid hs2)
                  hK selfId env.events rest (selfId + 1) true
                simp only [hsetup', hreg', Bool.not_false, if_true, Bool.not_true,
                  replyCount_append]
                simp only [replyCount, List.countP_cons, List.countP_nil] at *
                simp [isReply] at *
                omega

end RiapCm

namespace RiapCm

/-! ## Helper lemmas: normalization, token derivation, fresh workspaces -/

lemma stripNonDigits_eq_filter (l : List Char) :
    stripNonDigits l = l.filter isDigitChar := by
  induction l with
  | nil => rfl
  | cons c cs ih =>
    simp only [stripNonDigits, List.filter_cons, ih]

lemma replaceFirstAux_append_self (pat rest : List Char) (h : pat ≠ []) :
    replaceFirstAux pat [] (pat ++ rest) = rest := by
  match pat with
  | [] => exact absurd rfl h
  | c :: cs =>
    show replaceFirstAux (c :: cs) [] (c :: (cs ++ rest)) = rest
    simp only [replaceFirstAux]
    rw [if_pos]
    · show (c :: (cs ++ rest)).drop (c :: cs).length = rest
      have : c :: (cs ++ rest) = (c :: cs) ++ rest := rfl
      rw [this, List.drop_left]
    · rw [List.isPrefixOf_iff_prefix]
      exact ⟨rest, rfl⟩

lemma sessionDirPath_injective (m k : Nat) (h : sessionDirPath m = sessionDirPath k) :
    m = k := by
  have h2 := congrArg String.data h
  simp only [sessionDirPath, makeid, String.data_append] at h2
  have h3 := List.append_cancel_left h2
  have h4 : List.replicate m 'x' = List.replicate k 'x' := by
    simpa using h3
  have h5 := congrArg List.length h4
  simpa using h5

/-- The primary unregistered path of a single invocation with the reply
guard clear: the pairing code is requested for the normalized number, sent
to the caller, and the function returns at line 67 without registering the
event listeners, whatever events the transport would later deliver. -/
lemma unregistered_fresh_run (fuel : Nat) (raw : String) (env : InvocationEnv)
    (rest : List InvocationEnv) (selfId : Nat)
    (hraw : raw ≠ "") (hsetup : env.setupFails = false)
    (hreg : env.registered = false) :
    generatePairingCodeAndConnect (fuel + 1) (some raw) (env :: rest) selfId false =
      { effects := [.openSession (sessionDirPath selfId), .delay 1500,
          .requestPairingCode (normalizeNumber raw), .reply 200 env.pairingCode],
        headersSent := true, exited := false, thrown := none,
        rest := rest, nextId := selfId + 1 } := by
  simp [generatePairingCodeAndConnect, hraw, hsetup, hreg]

end RiapCm

namespace RiapCm

/-! ## Claim theorems -/

/-- C1: for every originating request (the reply guard is clear on entry),
at most one HTTP-style reply is ever sent regardless of which code paths
run — pairing-code reply, export success, export failure, retries, auth
failure, setup error — and the number of replies emitted is exactly what
the `headersSent` guard records on exit, so the guard transitions false to
true exactly when the single reply is written and every later reply site
is suppressed by the guard. -/
theorem at_most_one_reply (fuel : Nat) (rawNumber : Option String)
    (envs : List InvocationEnv) (selfId : Nat) :
    replyCount (generatePairingCodeAndConnect fuel rawNumber envs selfId
        false).effects ≤ 1 ∧
    replyCount (generatePairingCodeAndConnect fuel rawNumber envs selfId
        false).effects
      = (generatePairingCodeAndConnect fuel rawNumber envs selfId
          false).headersSent.toNat := by
  have h := flow_reply_inv fuel rawNumber envs selfId false (fun _ => rfl)
  cases hb : (generatePairingCodeAndConnect fuel rawNumber envs selfId
      false).headersSent <;>
    rw [hb] at h <;> simp at h <;> simp [h, hb]

/-- C2: the claim (an Open event with the credential artifact absent after
the settle interval yields a MissingCredentials 500 reply, a session close,
a workspace removal and no upload) describes the intent of lines 84-92, but
the code instead throws at line 85: the log template references
`cresFilePath`, a typo for `credsFilePath` bound nowhere, so a
`ReferenceError` escapes the handler before the reply, close and removal
run.  Only the settle delay happens; no reply, no socket close, no
workspace removal — and indeed no upload — ever occur on this path. -/
theorem open_missing_creds_reference_error (selfId : Nat) (hs : Bool)
    (env : OpenEnv) (h : env.credsFileExists = false) :
    connectionOpenHandler selfId hs env =
      { effects := [.delay 5000], headersSent := hs, exited := false,
        thrown := some "ReferenceError: cresFilePath is not defined",
        retry := false } := by
  simp [connectionOpenHandler, h]

theorem open_missing_creds_reference_error_witness :
    connectionOpenHandler 0 false
        ⟨false, "255700000001@s.whatsapp.net", "https://mega.nz/file/ABC123",
          "12:00:00", "1/1/2026", false, false, false⟩ =
      { effects := [.delay 5000], headersSent := false, exited := false,
        thrown := some "ReferenceError: cresFilePath is not defined",
        retry := false } :=
  open_missing_creds_reference_error 0 false _ rfl

/-- C5: a Close event whose ErrorInfo status code is 401 schedules no retry:
the workspace is removed, the caller receives the auth-failure payload as
the terminal reply exactly when no reply has been sent yet, `process.exit`
is reached, and the event loop stops permanently — every queued later event
is dropped and the retry continuation is never consulted. -/
theorem close_unauthorized_terminal (selfId : Nat) (hs : Bool)
    (err : ErrorInfo) (h : err.statusCode = 401) :
    connectionCloseHandler selfId hs (some err) =
      { effects := [.log authFailedLogMsg, .removeFile (sessionDirPath selfId)]
          ++ (if hs then [] else [.reply 401 authFailedMsg])
          ++ [.processExit 0],
        headersSent := true, exited := true, thrown := none, retry := false } ∧
    ∀ (retryK : List InvocationEnv → Nat → Bool → FlowResult)
      (rest : List InvocationEnv) (nid : Nat) (evs : List ConnectionEvent),
      connectionUpdateLoop retryK selfId
          (ConnectionEvent.Close (some err) :: evs) rest nid hs =
        { effects := [.log authFailedLogMsg, .removeFile (sessionDirPath selfId)]
            ++ (if hs then [] else [.reply 401 authFailedMsg])
            ++ [.processExit 0],
          headersSent := true, exited := true, thrown := none,
          rest := rest, nextId := nid } := by
  constructor
  · simp [connectionCloseHandler, h]
  · intro retryK rest nid evs
    simp [connectionUpdateLoop, connectionUpdateHandler, connectionCloseHandler, h]

theorem close_unauthorized_terminal_witness :
    connectionCloseHandler 0 false (some ⟨401, "logged out"⟩) =
      { effects := [.log authFailedLogMsg, .removeFile (sessionDirPath 0),
          .reply 401 authFailedMsg, .processExit 0],
        headersSent := true, exited := true, thrown := none, retry := false } ∧
    connectionUpdateLoop (fun r n h2 =>
        { effects := [], headersSent := h2, exited := false, thrown := none,
          rest := r, nextId := n }) 0
        [ConnectionEvent.Close (some ⟨401, "logged out"⟩),
         ConnectionEvent.Close (some ⟨500, "later"⟩)] [] 7 false =
      { effects := [.log authFailedLogMsg, .removeFile (sessionDirPath 0),
          .reply 401 authFailedMsg, .processExit 0],
        headersSent := true, exited := true, thrown := none,
        rest := [], nextId := 7 } :=
  ⟨(close_unauthorized_terminal 0 false ⟨401, "logged out"⟩ rfl).1,
   (close_unauthorized_terminal 0 false ⟨401, "logged out"⟩ rfl).2 _ [] 7
     [ConnectionEvent.Close (some ⟨500, "later"⟩)]⟩

/-- C6: a Close event carrying ErrorInfo with any status code other than 401
sends no reply on its path and schedules exactly one retry: the handler
logs the cause, removes the failed attempt's workspace first, waits the
fixed 2000 ms backoff, and the loop then re-invokes the flow once with the
same raw number; the effect trace of a registered invocation whose single
event is such a Close is exactly the handler effects followed by the
effects of one re-invocation on the same input. -/
theorem close_transient_schedules_retry (selfId : Nat) (hs : Bool)
    (err : ErrorInfo) (h : err.statusCode ≠ 401) :
    connectionCloseHandler selfId hs (some err) =
      { effects := [.log closedRetryLogMsg,
          .removeFile (sessionDirPath selfId), .delay 2000],
        headersSent := hs, exited := false, thrown := none, retry := true } ∧
    ∀ (fuel : Nat) (raw : String) (env : InvocationEnv)
      (rest : List InvocationEnv),
      raw ≠ "" → env.setupFails = false → env.registered = true →
      env.events = [ConnectionEvent.Close (some err)] →
      (generatePairingCodeAndConnect (fuel + 1) (some raw) (env :: rest)
          selfId hs).effects =
        [.openSession (sessionDirPath selfId), .subscribeCreds,
         .subscribeConnection, .log closedRetryLogMsg,
         .removeFile (sessionDirPath selfId), .delay 2000]
        ++ (generatePairingCodeAndConnect fuel (some raw) rest (selfId + 1)
            hs).effects := by
  constructor
  · simp [connectionCloseHandler, h]
  · intro fuel raw env rest hraw hsetup hreg hevs
    simp only [generatePairingCodeAndConnect, hraw, hsetup, hreg, hevs]
    simp only [connectionUpdateLoop, connectionUpdateHandler,
      connectionCloseHandler, h]
    split <;> simp [connectionUpdateLoop]
    · assumption
    · split <;> rfl

theorem close_transient_schedules_retry_witness :
    connectionCloseHandler 0 false (some ⟨408, "connection lost"⟩) =
      { effects := [.log closedRetryLogMsg, .removeFile (sessionDirPath 0),
          .delay 2000],
        headersSent := false, exited := false, thrown := none, retry := true } ∧
    (generatePairingCodeAndConnect 1 (some "15551234567")
        [⟨false, true, "",
          [ConnectionEvent.Close (some ⟨408, "connection lost"⟩)]⟩] 0
        false).effects =
      [.openSession (sessionDirPath 0), .subscribeCreds, .subscribeConnection,
       .log closedRetryLogMsg, .removeFile (sessionDirPath 0), .delay 2000]
      ++ (generatePairingCodeAndConnect 0 (some "15551234567") [] 1
          false).effects :=
  ⟨(close_transient_schedules_retry 0 false ⟨408, "connection lost"⟩
      (by decide)).1,
   (close_transient_schedules_retry 0 false ⟨408, "connection lost"⟩
      (by decide)).2 0 "15551234567" ⟨false, true, "",
        [ConnectionEvent.Close (some ⟨408, "connection lost"⟩)]⟩ []
      (by decide) rfl rfl rfl⟩

/-- C9: a Close event lacking ErrorInfo (no `lastDisconnect` or no `.error`
attached) is inert: the handler performs no effect at all — no workspace
removal, no reply, no retry, no exit — and delivering such an event to the
loop leaves the rest of the run exactly as if the event had never
happened. -/
theorem close_without_error_inert (selfId : Nat) (hs : Bool) :
    connectionCloseHandler selfId hs none =
      { effects := [], headersSent := hs, exited := false, thrown := none,
        retry := false } ∧
    ∀ (retryK : List InvocationEnv → Nat → Bool → FlowResult)
      (rest : List InvocationEnv) (nid : Nat) (evs : List ConnectionEvent),
      connectionUpdateLoop retryK selfId (ConnectionEvent.Close none :: evs)
          rest nid hs =
        connectionUpdateLoop retryK selfId evs rest nid hs := by
  constructor
  · rfl
  · intro retryK rest nid evs
    simp [connectionUpdateLoop, connectionUpdateHandler, connectionCloseHandler]

end RiapCm

namespace RiapCm

/-- C7: an Open event with the credential artifact present and no export
fault invokes the archival upload exactly once, with the artifact path and
a filename derived from the authenticated identity (`sock.user.id + ".json"`),
then sends exactly two messages to that identity in order — the token
message first, then the richer description message quoting it — and on
completion closes the socket, removes the workspace and reaches
`process.exit()` (exit code 0, success). -/
theorem open_with_artifact_exports (selfId : Nat) (hs : Bool) (env : OpenEnv)
    (h1 : env.credsFileExists = true) (h2 : env.uploadFails = false)
    (h3 : env.sendFirstFails = false) (h4 : env.sendSecondFails = false) :
    connectionOpenHandler selfId hs env =
      { effects := [.delay 5000,
          .upload (sessionDirPath selfId ++ "/creds.json")
            (env.userId ++ ".json"),
          .sendMessage env.userId (messageToSelf env.megaUrl) false,
          .sendMessage env.userId (botDescription env.time env.date) true,
          .delay 100, .closeSocket, .removeFile (sessionDirPath selfId),
          .log (connectedLogMsg env.userId), .processExit 0],
        headersSent := hs, exited := true, thrown := none, retry := false } ∧
    (connectionOpenHandler selfId hs env).effects.countP isUpload = 1 ∧
    (connectionOpenHandler selfId hs env).effects.countP isSend = 2 := by
  refine ⟨?_, ?_, ?_⟩ <;>
    simp [connectionOpenHandler, h1, h2, h3, h4, isUpload, isSend,
      List.countP_cons]

theorem open_with_artifact_exports_witness :
    connectionOpenHandler 0 false
        ⟨true, "255700000001@s.whatsapp.net", "https://mega.nz/file/ABC123",
          "12:00:00", "1/1/2026", false, false, false⟩ =
      { effects := [.delay 5000,
          .upload (sessionDirPath 0 ++ "/creds.json")
            ("255700000001@s.whatsapp.net" ++ ".json"),
          .sendMessage "255700000001@s.whatsapp.net"
            (messageToSelf "https://mega.nz/file/ABC123") false,
          .sendMessage "255700000001@s.whatsapp.net"
            (botDescription "12:00:00" "1/1/2026") true,
          .delay 100, .closeSocket, .removeFile (sessionDirPath 0),
          .log (connectedLogMsg "255700000001@s.whatsapp.net"),
          .processExit 0],
        headersSent := false, exited := true, thrown := none,
        retry := false } ∧
    (connectionOpenHandler 0 false
        ⟨true, "255700000001@s.whatsapp.net", "https://mega.nz/file/ABC123",
          "12:00:00", "1/1/2026", false, false, false⟩).effects.countP
        isUpload = 1 ∧
    (connectionOpenHandler 0 false
        ⟨true, "255700000001@s.whatsapp.net", "https://mega.nz/file/ABC123",
          "12:00:00", "1/1/2026", false, false, false⟩).effects.countP
        isSend = 2 :=
  open_with_artifact_exports 0 false _ rfl rfl rfl rfl

/-- C3 counterexample: the raw input `"abc"` is non-empty but contains no
digits, so its normalized result is empty, yet the request is not rejected:
the falsy check at line 34 runs on the raw value before normalization, so a
session and workspace are created and a pairing code is requested for the
empty number — no 400 rejection ever occurs in the run. -/
theorem nondigit_input_not_rejected :
    normalizeNumber "abc" = "" ∧
    (generatePairingCodeAndConnect 1 (some "abc")
        [⟨false, false, "PAIRCODE", []⟩] 0 false).effects =
      [.openSession (sessionDirPath 0), .delay 1500, .requestPairingCode "",
       .reply 200 "PAIRCODE"] ∧
    Effect.reply 400 missingNumberMsg ∉
      (generatePairingCodeAndConnect 1 (some "abc")
          [⟨false, false, "PAIRCODE", []⟩] 0 false).effects := by
  refine ⟨rfl, rfl, ?_⟩
  decide

/-- C3 amended: normalization removes exactly the non-digit characters, and
the request is rejected with the bad-input reply before any workspace or
session is created exactly when the RAW input is missing or empty; a
non-empty raw input whose normalized result is empty is NOT rejected — the
flow opens a session (first effect) and proceeds with the empty normalized
number. -/
theorem normalize_and_reject_on_raw_empty :
    (∀ s : String, (normalizeNumber s).data = s.data.filter isDigitChar) ∧
    (∀ (fuel : Nat) (envs : List InvocationEnv) (selfId : Nat) (hs : Bool),
      (generatePairingCodeAndConnect (fuel + 1) none envs selfId hs).effects =
          [.reply 400 missingNumberMsg] ∧
      (generatePairingCodeAndConnect (fuel + 1) (some "") envs selfId
          hs).effects = [.reply 400 missingNumberMsg]) ∧
    (∀ (fuel : Nat) (raw : String) (env : InvocationEnv)
       (rest : List InvocationEnv) (selfId : Nat) (hs : Bool),
      raw ≠ "" → env.setupFails = false →
      (generatePairingCodeAndConnect (fuel + 1) (some raw) (env :: rest)
          selfId hs).effects.head? =
        some (.openSession (sessionDirPath selfId))) := by
  refine ⟨?_, ?_, ?_⟩
  · intro s
    exact stripNonDigits_eq_filter s.data
  · intro fuel envs selfId hs
    exact ⟨rfl, rfl⟩
  · intro fuel raw env rest selfId hs hraw hsetup
    cases hr : env.registered <;> cases hs <;>
      simp [generatePairingCodeAndConnect, hraw, hsetup, hr]

theorem normalize_and_reject_on_raw_empty_witness :
    (normalizeNumber "+255 (0) 712-345!").data =
        "+255 (0) 712-345!".data.filter isDigitChar ∧
    (generatePairingCodeAndConnect 1 none [] 0 false).effects =
        [.reply 400 missingNumberMsg] ∧
    (generatePairingCodeAndConnect 1 (some "no digits here")
        [⟨false, false, "X1", []⟩] 0 true).effects.head? =
      some (.openSession (sessionDirPath 0)) :=
  ⟨normalize_and_reject_on_raw_empty.1 "+255 (0) 712-345!",
   (normalize_and_reject_on_raw_empty.2.1 0 [] 0 false).1,
   normalize_and_reject_on_raw_empty.2.2 0 "no digits here"
     ⟨false, false, "X1", []⟩ [] 0 true (by decide) rfl⟩

/-- C4: the claim (after the pairing code is returned on the primary
unregistered path, the flow continues into the Lifecycle Monitor and a
connection-status subscription is registered) describes the spec's intended
control flow 1→2→3, but the code returns at line 67 immediately after
sending the pairing code: on every primary-path run (guard clear, session
unregistered) the run ends with the reply, no `connection.update` (or
`creds.update`) listener is ever registered, and whatever Open/Close events
the transport would deliver are never handled. -/
theorem primary_path_no_subscription (fuel : Nat) (raw : String)
    (env : InvocationEnv) (rest : List InvocationEnv) (selfId : Nat)
    (hraw : raw ≠ "") (hsetup : env.setupFails = false)
    (hreg : env.registered = false) :
    generatePairingCodeAndConnect (fuel + 1) (some raw) (env :: rest) selfId
        false =
      { effects := [.openSession (sessionDirPath selfId), .delay 1500,
          .requestPairingCode (normalizeNumber raw),
          .reply 200 env.pairingCode],
        headersSent := true, exited := false, thrown := none,
        rest := rest, nextId := selfId + 1 } ∧
    Effect.subscribeConnection ∉
      (generatePairingCodeAndConnect (fuel + 1) (some raw) (env :: rest)
          selfId false).effects := by
  refine ⟨unregistered_fresh_run fuel raw env rest selfId hraw hsetup hreg, ?_⟩
  rw [unregistered_fresh_run fuel raw env rest selfId hraw hsetup hreg]
  simp

theorem primary_path_no_subscription_witness :
    generatePairingCodeAndConnect 1 (some "+1 (555) 123-4567")
        [⟨false, false, "ABCD-EFGH",
          [ConnectionEvent.Open ⟨true, "15551234567@s.whatsapp.net",
            "https://mega.nz/file/Z9", "09:00:00", "2/2/2026", false, false,
            false⟩]⟩] 0 false =
      { effects := [.openSession (sessionDirPath 0), .delay 1500,
          .requestPairingCode "15551234567", .reply 200 "ABCD-EFGH"],
        headersSent := true, exited := false, thrown := none,
        rest := [], nextId := 1 } ∧
    Effect.subscribeConnection ∉
      (generatePairingCodeAndConnect 1 (some "+1 (555) 123-4567")
          [⟨false, false, "ABCD-EFGH",
            [ConnectionEvent.Open ⟨true, "15551234567@s.whatsapp.net",
              "https://mega.nz/file/Z9", "09:00:00", "2/2/2026", false, false,
              false⟩]⟩] 0 false).effects :=
  primary_path_no_subscription 0 "+1 (555) 123-4567" _ [] 0 (by decide) rfl rfl

/-- C8 counterexample: the code derives the token with JS
`String.replace`, which removes the FIRST OCCURRENCE of the fixed base
anywhere in the locator, not a leading prefix: on the locator
`"Ahttps://mega.nz/file/B"`, which does not start with the base, the code
produces `"AB"` while stripping the known prefix would leave the locator
unchanged, so "the token is derived by stripping the known fixed prefix"
fails for this locator. -/
theorem replace_first_differs_from_strip :
    sessionString "Ahttps://mega.nz/file/B" = "AB" ∧
    stripKnownBase "Ahttps://mega.nz/file/B" = "Ahttps://mega.nz/file/B" ∧
    sessionString "Ahttps://mega.nz/file/B" ≠
      stripKnownBase "Ahttps://mega.nz/file/B" := by
  refine ⟨?_, ?_, ?_⟩ <;> decide

/-- C8 amended: for every locator that begins with the known fixed base
`https://mega.nz/file/` — the shape the archival collaborator returns —
the derived token is exactly the locator with that base stripped (on other
strings the code removes the first occurrence of the base anywhere, which
is not prefix stripping); the self-message is the fixed
`RAHEEM-XMD-3>>>` marker followed by that token, so it contains the token;
and the end-to-end normalization example holds:
`"+1 (555) 123-4567"` normalizes to `"15551234567"`. -/
theorem token_and_message_derivation :
    (∀ rest : String, sessionString (megaUrlBase ++ rest) = rest) ∧
    (∀ megaUrl : String,
      messageToSelf megaUrl = "RAHEEM-XMD-3>>>" ++ sessionString megaUrl) ∧
    normalizeNumber "+1 (555) 123-4567" = "15551234567" := by
  refine ⟨?_, fun _ => rfl, by decide⟩
  intro rest
  cases rest with
  | mk l =>
    simp only [sessionString, replaceFirst]
    have hd : (megaUrlBase ++ String.mk l).data = megaUrlBase.data ++ l := rfl
    rw [hd, replaceFirstAux_append_self megaUrlBase.data l (by decide)]

/-- C10 counterexample: in a run whose first invocation starts from
already-registered credentials and receives one transient Close, the
scheduled retry runs with a fresh workspace, requests a new pairing code —
and DELIVERS it: the retry's `reply 200` is sent, because no reply had been
sent before the retry, contradicting "though not delivered, since a reply
was already sent". -/
theorem retry_delivers_new_code :
    (generatePairingCodeAndConnect 2 (some "15551234567")
        [⟨false, true, "",
          [ConnectionEvent.Close (some ⟨500, "stream errored"⟩)]⟩,
         ⟨false, false, "NEWCODE", []⟩] 0 false).effects =
      [.openSession (sessionDirPath 0), .subscribeCreds, .subscribeConnection,
       .log closedRetryLogMsg, .removeFile (sessionDirPath 0), .delay 2000,
       .openSession (sessionDirPath 1), .delay 1500,
       .requestPairingCode "15551234567", .reply 200 "NEWCODE"] ∧
    Effect.reply 200 "NEWCODE" ∈
      (generatePairingCodeAndConnect 2 (some "15551234567")
          [⟨false, true, "",
            [ConnectionEvent.Close (some ⟨500, "stream errored"⟩)]⟩,
           ⟨false, false, "NEWCODE", []⟩] 0 false).effects := by
  refine ⟨rfl, ?_⟩
  decide

/-- C10 amended: every invocation of the flow, including each
transient-close retry, uses a fresh session id and hence a distinct
workspace path (id uniqueness is the spec's contract for `makeid`); a retry
never reuses the failed attempt's workspace, and a retry starting from a
fresh, unregistered workspace requests a new pairing code for the same
normalized number.  The code is delivered exactly when no reply has been
sent yet: once the guard is set, a run emits no reply at all, so a retry
that follows the pairing-code reply requests but does not deliver a new
code. -/
theorem fresh_workspace_per_invocation :
    (∀ m k : Nat, m ≠ k → sessionDirPath m ≠ sessionDirPath k) ∧
    (∀ (fuel : Nat) (s : String) (envs : List InvocationEnv) (selfId : Nat),
      s ≠ "" →
      replyCount (generatePairingCodeAndConnect fuel (some s) envs selfId
          true).effects = 0) ∧
    (∀ (fuel : Nat) (s : String) (env : InvocationEnv)
       (rest : List InvocationEnv) (selfId : Nat),
      s ≠ "" → env.setupFails = false → env.registered = false →
      (generatePairingCodeAndConnect (fuel + 1) (some s) (env :: rest) selfId
          false).effects =
        [.openSession (sessionDirPath selfId), .delay 1500,
         .requestPairingCode (normalizeNumber s),
         .reply 200 env.pairingCode]) := by
  refine ⟨?_, ?_, ?_⟩
  · intro m k hmk h
    exact hmk (sessionDirPath_injective m k h)
  · intro fuel s envs selfId hs0
    have h := flow_reply_inv fuel (some s) envs selfId true (by
      intro hh
      exfalso
      rcases hh with h1 | h1
      · exact Option.noConfusion h1
      · exact hs0 (Option.some.inj h1))
    cases hb : (generatePairingCodeAndConnect fuel (some s) envs selfId
        true).headersSent <;>
      rw [hb] at h <;> simp at h <;> omega
  · intro fuel s env rest selfId hraw hsetup hreg
    rw [unregistered_fresh_run fuel s env rest selfId hraw hsetup hreg]

theorem fresh_workspace_per_invocation_witness :
    sessionDirPath 0 ≠ sessionDirPath 1 ∧
    replyCount (generatePairingCodeAndConnect 1 (some "15551234567")
        [⟨false, false, "C2", []⟩] 3 true).effects = 0 ∧
    (generatePairingCodeAndConnect 1 (some "777")
        [⟨false, false, "C3", []⟩] 5 false).effects =
      [.openSession (sessionDirPath 5), .delay 1500,
       .requestPairingCode "777", .reply 200 "C3"] :=
  ⟨fresh_workspace_per_invocation.1 0 1 (by decide),
   fresh_workspace_per_invocation.2.1 1 "15551234567"
     [⟨false, false, "C2", []⟩] 3 (by decide),
   fresh_workspace_per_invocation.2.2 0 "777" ⟨false, false, "C3", []⟩ [] 5
     (by decide) rfl rfl⟩

end RiapCm
